import Mathlib

/-!
Shallow embedding of `my_mcp_app/server.py` (a FastMCP server exposing
MongoDB-backed resources and tools) together with proofs about the claims
of its specification.

Modelling conventions:
* A BSON document is an association list `List (String × BVal)` (Python
  dicts preserve insertion order; handler results are built as dict
  literals).
* A Mongo collection is a `List Document`; the database handle is a
  function `String → List Document` from collection name to its contents
  (`app_ctx.db[collection_name]` in the source).
* A Python call that may raise is an `Except` value; a handler body with
  no `try/except` maps over the primitive call's outcome, so an error in
  the primitive propagates out of the handler, while a handler wrapping
  its body in `try/except Exception` is total and always returns `.ok`.
-/

/-- BSON-ish values as they appear in the handlers of `server.py`:
booleans, counters, strings, `ObjectId` (identified by a numeric token),
embedded documents and arrays. -/
inductive BVal where
  | bool (b : Bool)
  | nat (n : Nat)
  | str (s : String)
  | oid (n : Nat)
  | doc (fields : List (String × BVal))
  | list (xs : List BVal)

/-- A document / Python dict: ordered association list of fields. -/
def Document : Type := List (String × BVal)

/-- Python `d.get(k)` / `d[k]`: first binding of key `k`. -/
def getField : Document → String → Option BVal
  | [], _ => none
  | (k', v') :: rest, k => if k' == k then some v' else getField rest k

/-- Python `d[k] = v`: replace the first binding of `k`, or append. -/
def setField : Document → String → BVal → Document
  | [], k, v => [(k, v)]
  | (k', v') :: rest, k, v =>
      if k' == k then (k, v) :: rest else (k', v') :: setField rest k v

/-- Mongo matching of the query `{"name": item}` used by `get_mongo_item`
and `delete_mongo_item` (server.py lines 98 and 169): the document's
`name` field is the string `item`. -/
def nameMatches (d : Document) (item : String) : Bool :=
  match getField d "name" with
  | some (.str s) => s == item
  | _ => false

/-- `collection.find_one({"name": item})` (server.py line 99): first
document of the collection matching the query, if any. -/
def find_one (coll : List Document) (item : String) : Option Document :=
  coll.find? (fun d => nameMatches d item)

/-- `str(ObjectId)` rendering (hex digits of the token). -/
def oidToString (n : Nat) : String := (Nat.toDigits 16 n).asString

/-- Lines 100-102 / 120-121 of server.py: if the document's `_id` is an
`ObjectId`, overwrite it with its string rendering. -/
def normalizeId (d : Document) : Document :=
  match getField d "_id" with
  | some (.oid n) => setField d "_id" (.str (oidToString n))
  | _ => d

/-! ### Resource router (modelled from the spec)

The router (`register` / `resolve`) lives in the FastMCP framework, not
under `src/`; only the template registrations at server.py lines 69, 92,
110 and 127 are repository code.  The matching algorithm below is
modelled from the spec: a template splits on `/` into literal segments
and `{placeholder}` segments; a URI matches iff the segment counts agree,
literals match exactly (case-sensitive) and each placeholder matches any
non-empty segment. -/

/-- A template segment: a literal, or a named placeholder. -/
inductive Seg where
  | lit (s : String)
  | hole (nm : String)
deriving DecidableEq

/-- Split a character list on `/`. -/
def splitSegs : List Char → List (List Char)
  | [] => [[]]
  | c :: rest =>
      if c = '/' then [] :: splitSegs rest
      else
        match splitSegs rest with
        | s :: ss => (c :: s) :: ss
        | [] => [[c]]

/-- Split a URI or template string into its `/`-separated segments. -/
def splitUri (u : String) : List String :=
  (splitSegs u.data).map (fun cs => String.mk cs)

/-- Modelled from the spec: parse one template segment; `\x7bname\x7d`
becomes a placeholder, everything else a literal. -/
def parseSeg (cs : List Char) : Seg :=
  match cs with
  | '\x7b' :: rest =>
      if rest.getLast? == some '\x7d' then .hole (String.mk rest.dropLast)
      else .lit (String.mk cs)
  | _ => .lit (String.mk cs)

/-- Modelled from the spec: parse a template string into segments. -/
def parseTemplate (t : String) : List Seg :=
  (splitSegs t.data).map parseSeg

/-- Modelled from the spec: a literal segment matches exactly; a
placeholder matches any non-empty segment. -/
def segMatches : Seg → String → Bool
  | .lit l, s => l == s
  | .hole _, s => !(s == "")

/-- Modelled from the spec: a URI matches a template iff segment counts
agree and the segments match pointwise. -/
def templateMatches : List Seg → List String → Bool
  | [], [] => true
  | t :: ts, s :: ss => segMatches t s && templateMatches ts ss
  | _, _ => false

/-- The template registered for `get_app_info` (server.py line 69). -/
def tmpl_app_info : String := "app://info"

/-- The template registered for `get_mongo_item` (server.py line 92). -/
def tmpl_get_mongo_item : String :=
  "mongo://\x7bcollection_name\x7d/\x7bitem_id\x7d"

/-- The template registered for `list_all_in_collection` (server.py
line 110). -/
def tmpl_list_all : String := "mongo://\x7bcollection_name\x7d/list_all"

/-- The template registered for `list_mongo_collections` (server.py
line 127). -/
def tmpl_collections : String := "mongo://collections"

/-- The four resource templates, in registration order. -/
def registered_templates : List String :=
  [tmpl_app_info, tmpl_get_mongo_item, tmpl_list_all, tmpl_collections]

/-- Modelled from the spec: the registered template set is ambiguous if
two distinct registered templates match a common URI. -/
def ambiguousPair (ts : List String) (t₁ t₂ uri : String) : Prop :=
  t₁ ∈ ts ∧ t₂ ∈ ts ∧ parseTemplate t₁ ≠ parseTemplate t₂ ∧
    templateMatches (parseTemplate t₁) (splitUri uri) = true ∧
    templateMatches (parseTemplate t₂) (splitUri uri) = true

/-! ### Execution bridge: `run_sync` (server.py lines 60-64) -/

/-- Errors a Python expression can raise in this model: a
`RuntimeError` from the asyncio machinery, or an operation-level
exception (pymongo errors etc.), each carrying its message. -/
inductive PyErr where
  | runtimeError (msg : String)
  | opErr (msg : String)
deriving DecidableEq

/-- An asyncio event loop, with its `is_running()` observation. -/
structure EventLoop where
  running : Bool
deriving DecidableEq

/-- The calling context of `run_sync`: either no event loop is running,
or some loop is current. -/
inductive AsyncCtx where
  | noLoop
  | withLoop (l : EventLoop)

/-- `asyncio.get_running_loop()`: returns the current loop, or raises
`RuntimeError('no running event loop')` when there is none. -/
def get_running_loop : AsyncCtx → Except PyErr EventLoop
  | .noLoop => .error (.runtimeError "no running event loop")
  | .withLoop l => .ok l

/-- `await asyncio.to_thread(func)`: runs `func` on a worker thread and
re-raises its error (or returns its result) in the calling context. -/
def to_thread (f : Unit → Except PyErr α) : Except PyErr α := f ()

/-- server.py lines 60-64: `run_sync` evaluates
`asyncio.get_running_loop().is_running()` — the `get_running_loop` call
itself can raise, in which case `func` is never reached — then offloads
via `to_thread` when the loop is running and otherwise calls `func`
directly. -/
def run_sync (ctx : AsyncCtx) (f : Unit → Except PyErr α) : Except PyErr α :=
  match get_running_loop ctx with
  | .error e => .error e
  | .ok l => if l.running then to_thread f else f ()

/-! ### Connection lifecycle: `app_lifespan_sync` (server.py lines 24-48) -/

/-- The configured database name (server.py line 16). -/
def DATABASE_NAME : String := "my_mcp_db_sync"

/-- The server state yielded by the lifespan: a database handle (client
token paired with the database name it resolves) and the client token. -/
structure AppContext where
  db : Nat × String
  mongo_client : Nat

/-- Startup phase of `app_lifespan_sync` (server.py lines 30-42),
parameterised by the client token of `pymongo.MongoClient(MONGODB_URI)`
and by the outcome of the `mongo_client.admin.command('ping')` liveness
check: a ping failure is re-raised (`raise` on line 37) before anything
is yielded; only after a successful ping is `db` resolved and the
`AppContext` yielded. -/
def app_lifespan_sync (mongo_client : Nat) (pingRes : Except String Unit) :
    Except String AppContext :=
  match pingRes with
  | .error e => .error e
  | .ok _ => .ok { db := (mongo_client, DATABASE_NAME), mongo_client := mongo_client }

/-! ### Resource handlers (server.py lines 92-137)

Each handler's inner `db_call_sync` is modelled twice: a `*_db_call_sync`
function of the primitive datastore call's outcome (`Except`-valued, so
exception flow is visible), and a pure function of the database contents
for the success path. -/

/-- Lines 100-105 of server.py: the branch of `get_mongo_item`'s
`db_call_sync` after `find_one` has returned. -/
def get_mongo_item_branch (cn id : String) : Option Document → Document
  | some document =>
      [("found", .bool true), ("collection", .str cn),
       ("item", .doc (normalizeId document))]
  | none =>
      [("found", .bool false), ("collection", .str cn),
       ("query", .doc [("name", .str id)]), ("message", .str "Item not found")]

/-- Lines 96-105 of server.py: `db_call_sync` of `get_mongo_item` has no
`try/except`, so an exception from `collection.find_one` propagates
unchanged; on success the branch logic runs. -/
def get_mongo_item_db_call_sync (findRes : Except String (Option Document))
    (cn id : String) : Except String Document :=
  findRes.map (get_mongo_item_branch cn id)

/-- `get_mongo_item` on a live database (success path): `find_one` with
query `{"name": id}` against `db[cn]`, then the branch logic. -/
def get_mongo_item (db : String → List Document) (cn id : String) : Document :=
  get_mongo_item_branch cn id (find_one (db cn) id)

/-- Lines 116-123 of server.py: the `for doc in cursor` loop of
`list_all_in_collection` with the final result dict; `cursor` is the
document list yielded by `collection.find({}).limit(20)`. -/
def list_all_loop (cn : String) (cursor : List Document) : Document :=
  let documents_list := cursor.map normalizeId
  [("collection", .str cn), ("count", .nat documents_list.length),
   ("items", .list (documents_list.map BVal.doc))]

/-- Lines 114-123 of server.py: `db_call_sync` of `list_all_in_collection`
has no `try/except`, so an exception raised while iterating the cursor
propagates unchanged. -/
def list_all_in_collection_db_call_sync (cursorRes : Except String (List Document))
    (cn : String) : Except String Document :=
  cursorRes.map (list_all_loop cn)

/-- `list_all_in_collection` on a live database (success path):
`find({}).limit(20)` yields the first 20 documents of `db[cn]`. -/
def list_all_in_collection (db : String → List Document) (cn : String) : Document :=
  list_all_loop cn ((db cn).take 20)

/-- Lines 131-135 of server.py: `db_call_sync` of
`list_mongo_collections` wraps the `list_collection_names()` call in
`try/except Exception`, returning the names on success and the singleton
`["Error listing collections: " ++ e]` on any exception; nothing
propagates. -/
def list_mongo_collections_db_call_sync (r : Except String (List String)) :
    Except String (List String) :=
  .ok (match r with
       | .ok names => names
       | .error e => ["Error listing collections: " ++ e])

/-! ### Tool handlers (server.py lines 141-179) -/

/-- Lines 145-158 of server.py: `db_call_sync` of `add_mongo_item`,
parameterised by whether `item_data` is a dict and by the outcome of
`collection.insert_one(item_data)` (an `ObjectId` token on success).
The whole body is inside `try/except Exception`, so nothing propagates:
a non-dict payload yields a validation failure, an insert exception
yields `{"success": False, "error": str(e)}`, and success yields the
inserted id rendered as a string. -/
def add_mongo_item_db_call_sync (itemDataIsDict : Bool)
    (insertRes : Except String Nat) (cn : String) : Except String Document :=
  .ok (if itemDataIsDict = false then
        [("success", .bool false), ("error", .str "item_data must be a dictionary")]
      else
        match insertRes with
        | .ok newId =>
            [("success", .bool true), ("collection", .str cn),
             ("inserted_id", .str (oidToString newId))]
        | .error e => [("success", .bool false), ("error", .str e)])

/-- `collection.delete_one({"name": item})`: removes the first matching
document, returning the remaining collection and the deleted count. -/
def delete_one : List Document → String → List Document × Nat
  | [], _ => ([], 0)
  | d :: ds, item =>
      if nameMatches d item then (ds, 1)
      else
        let r := delete_one ds item
        (d :: r.1, r.2)

/-- Lines 167-177 of server.py: `db_call_sync` of `delete_mongo_item`,
parameterised by the outcome of `collection.delete_one(query)` (the
deleted count on success). The call is inside `try/except Exception`, so
nothing propagates; a positive count yields success with the count and
query, a zero count the not-found failure, an exception
`{"success": False, "error": str(e)}`. -/
def delete_mongo_item_db_call_sync (deleteRes : Except String Nat)
    (cn item : String) : Except String Document :=
  .ok (match deleteRes with
       | .ok c =>
          if c > 0 then
            [("success", .bool true), ("deleted_count", .nat c),
             ("query", .doc [("name", .str item)])]
          else
            [("success", .bool false), ("deleted_count", .nat 0),
             ("message", .str "No item found matching query"),
             ("query", .doc [("name", .str item)])]
       | .error e => [("success", .bool false), ("error", .str e)])

/-- `delete_mongo_item` on a live database (success path of the
`delete_one` call). -/
def delete_mongo_item (db : String → List Document) (cn item : String) : Document :=
  if (delete_one (db cn) item).2 > 0 then
    [("success", .bool true), ("deleted_count", .nat (delete_one (db cn) item).2),
     ("query", .doc [("name", .str item)])]
  else
    [("success", .bool false), ("deleted_count", .nat 0),
     ("message", .str "No item found matching query"),
     ("query", .doc [("name", .str item)])]

/-! ### Helper lemmas -/

theorem getField_setField (d : Document) (k : String) (v : BVal) :
    getField (setField d k v) k = some v := by
  induction d with
  | nil => simp [setField, getField]
  | cons kv rest ih =>
      obtain ⟨k', v'⟩ := kv
      by_cases h : k' == k
      · simp [setField, getField, h]
      · simp [setField, getField, h, ih]

theorem normalizeId_not_oid (d : Document) (n : Nat) :
    getField (normalizeId d) "_id" ≠ some (BVal.oid n) := by
  cases h : getField d "_id" with
  | none => simp [normalizeId, h]
  | some v => cases v <;> simp [normalizeId, h, getField_setField]

theorem normalizeId_oid (d : Document) (n : Nat)
    (h : getField d "_id" = some (BVal.oid n)) :
    getField (normalizeId d) "_id" = some (BVal.str (oidToString n)) := by
  simp [normalizeId, h, getField_setField]

theorem delete_one_count_le (l : List Document) (item : String) :
    (delete_one l item).2 ≤ 1 := by
  induction l with
  | nil => simp [delete_one]
  | cons d ds ih =>
      by_cases h : nameMatches d item <;> simp [delete_one, h, ih]

theorem delete_one_length (l : List Document) (item : String) :
    l.length = (delete_one l item).1.length + (delete_one l item).2 := by
  induction l with
  | nil => simp [delete_one]
  | cons d ds ih =>
      by_cases h : nameMatches d item
      · simp [delete_one, h]
      · simp [delete_one, h]
        omega

/-! ### Claims -/

/-- Claim C1: the spec requires ambiguous templates to be rejected at
registration time, so that at most one registered template matches any
URI.  The configuration of server.py violates this: the templates bound
to `get_mongo_item` (line 92) and `list_all_in_collection` (line 110)
are distinct registered templates that both match the URI
`mongo://parts/list_all` under the spec's own matching algorithm, yet
server.py registers both and the server starts, with the ambiguity left
to request time.  This theorem evaluates the ambiguity at that failing
input. -/
theorem C1_registered_templates_ambiguous :
    ambiguousPair registered_templates tmpl_get_mongo_item tmpl_list_all
      "mongo://parts/list_all" :=
  ⟨by decide, by decide, by decide, by decide, by decide⟩

/-- Claim C3: with no running event loop, `run_sync` is claimed to fall
back to executing the operation directly with identical output.  In the
code, `asyncio.get_running_loop()` raises
`RuntimeError('no running event loop')` before `func` is reached, so a
call that should return `Except.ok 42` instead raises: the fallback
branch is unreachable.  This theorem evaluates the code at that failing
input. -/
theorem C3_run_sync_no_loop_raises :
    run_sync AsyncCtx.noLoop (fun _ => Except.ok (42 : Nat)) =
      Except.error (PyErr.runtimeError "no running event loop") ∧
    run_sync AsyncCtx.noLoop (fun _ => Except.ok (42 : Nat)) ≠
      Except.ok 42 := by
  refine ⟨rfl, ?_⟩
  intro h
  simp [run_sync, get_running_loop] at h

/-- Claim C4: `app_lifespan_sync` performs the ping liveness check
before yielding the server context; a failed check propagates out of
startup and the `AppContext` is never yielded, and conversely a yielded
context implies the ping succeeded. -/
theorem C4_lifespan_ping_gate (client : Nat) (pingRes : Except String Unit) :
    (∀ e, pingRes = Except.error e →
      app_lifespan_sync client pingRes = Except.error e) ∧
    (∀ ctx, app_lifespan_sync client pingRes = Except.ok ctx →
      pingRes = Except.ok () ∧ ctx.mongo_client = client) := by
  cases pingRes with
  | error e =>
      refine ⟨fun e' h => ?_, fun ctx h => ?_⟩
      · cases h; rfl
      · simp [app_lifespan_sync] at h
  | ok u =>
      cases u
      refine ⟨fun e' h => ?_, fun ctx h => ?_⟩
      · cases h
      · have h2 : (Except.ok ⟨(client, DATABASE_NAME), client⟩ :
            Except String AppContext) = Except.ok ctx := h
        have h3 := Except.ok.inj h2
        exact ⟨rfl, by rw [← h3]⟩

theorem C4_lifespan_ping_gate_witness :
    app_lifespan_sync 0 (Except.error "connection refused") =
      Except.error "connection refused" :=
  (C4_lifespan_ping_gate 0 (Except.error "connection refused")).1
    "connection refused" rfl

/-- Claim C9: `list_mongo_collections` returns the collection names when
the underlying call succeeds; when it raises, it returns a singleton
list holding one descriptive string built as
`"Error listing collections: "` followed by the exception text, and
never propagates the exception. -/
theorem C9_list_collections_policy :
    (∀ names, list_mongo_collections_db_call_sync (Except.ok names) =
      Except.ok names) ∧
    (∀ r, ∃ l, list_mongo_collections_db_call_sync r = Except.ok l) ∧
    (∀ e, ∃ t, list_mongo_collections_db_call_sync (Except.error e) =
        Except.ok ["Error listing collections: " ++ t] ∧
      ["Error listing collections: " ++ t].length = 1) := by
  refine ⟨fun names => rfl, fun r => ⟨_, rfl⟩, fun e => ⟨e, rfl, rfl⟩⟩

/-- Claim C2 fails on the code: `get_mongo_item`'s `db_call_sync` has no
`try/except`, so an exception from `collection.find_one` escapes the
handler instead of becoming a structured result, and likewise for the
cursor iteration of `list_all_in_collection`.  Concrete counterexample:
a raising datastore call makes both handlers propagate the error. -/
theorem C2_handlers_propagate_counterexample :
    get_mongo_item_db_call_sync (Except.error "boom") "parts" "widget" =
      Except.error "boom" ∧
    list_all_in_collection_db_call_sync (Except.error "boom") "parts" =
      Except.error "boom" :=
  ⟨rfl, rfl⟩

/-- Claim C2, amended: the handlers with a `try/except`
(`add_mongo_item`, `delete_mongo_item`, `list_mongo_collections`) catch
every datastore-layer exception and return a structured result, but
`get_mongo_item` and `list_all_in_collection` have no `try/except`
around their datastore calls, so an exception there propagates out of
the handler unchanged. -/
theorem C2_amended_exception_policy :
    (∀ (b : Bool) (r : Except String Nat) (cn : String),
      ∃ d, add_mongo_item_db_call_sync b r cn = Except.ok d) ∧
    (∀ (r : Except String Nat) (cn item : String),
      ∃ d, delete_mongo_item_db_call_sync r cn item = Except.ok d) ∧
    (∀ r, ∃ l, list_mongo_collections_db_call_sync r = Except.ok l) ∧
    (∀ (e cn id : String),
      get_mongo_item_db_call_sync (Except.error e) cn id = Except.error e) ∧
    (∀ (e cn : String),
      list_all_in_collection_db_call_sync (Except.error e) cn =
        Except.error e) := by
  refine ⟨fun b r cn => ⟨_, rfl⟩, fun r cn item => ⟨_, rfl⟩,
    fun r => ⟨_, rfl⟩, fun e cn id => rfl, fun e cn => rfl⟩

/-- Claim C5: `delete_mongo_item` deletes at most one document matching
the query `{"name": item}`, reports the count actually removed (0 or 1)
in `deleted_count`, returns the query in both cases, and yields
`success:false` with the message `"No item found matching query"` when
nothing matched and `success:true` when a document was removed. -/
theorem C5_delete_semantics (db : String → List Document) (cn item : String) :
    (delete_one (db cn) item).2 ≤ 1 ∧
    (db cn).length =
      (delete_one (db cn) item).1.length + (delete_one (db cn) item).2 ∧
    getField (delete_mongo_item db cn item) "deleted_count" =
      some (BVal.nat (delete_one (db cn) item).2) ∧
    getField (delete_mongo_item db cn item) "query" =
      some (BVal.doc [("name", BVal.str item)]) ∧
    ((delete_one (db cn) item).2 = 0 →
      getField (delete_mongo_item db cn item) "success" =
        some (BVal.bool false) ∧
      getField (delete_mongo_item db cn item) "message" =
        some (BVal.str "No item found matching query")) ∧
    (0 < (delete_one (db cn) item).2 →
      getField (delete_mongo_item db cn item) "success" =
        some (BVal.bool true)) := by
  refine ⟨delete_one_count_le _ _, delete_one_length _ _, ?_, ?_, ?_, ?_⟩ <;>
    rcases Nat.eq_zero_or_pos (delete_one (db cn) item).2 with h | h
  · simp [delete_mongo_item, h, getField]
  · simp [delete_mongo_item, h, Nat.pos_iff_ne_zero.mp h, getField]
  · simp [delete_mongo_item, h, getField]
  · simp [delete_mongo_item, h, Nat.pos_iff_ne_zero.mp h, getField]
  · intro h0
    simp [delete_mongo_item, h0, getField]
  · intro h0
    omega
  · intro h0
    omega
  · intro h0
    simp [delete_mongo_item, h0, Nat.pos_iff_ne_zero.mp h0, getField]

theorem C5_delete_semantics_witness :
    (0 < (delete_one ((fun _ => [[("name", BVal.str "widget")]] :
        String → List Document) "parts") "widget").2 ∧
      getField (delete_mongo_item (fun _ => [[("name", BVal.str "widget")]])
        "parts" "widget") "success" = some (BVal.bool true)) ∧
    ((delete_one ((fun _ => [] : String → List Document) "parts")
        "widget").2 = 0 ∧
      getField (delete_mongo_item (fun _ => []) "parts" "widget") "message" =
        some (BVal.str "No item found matching query")) := by
  constructor
  · exact ⟨by decide,
      (C5_delete_semantics (fun _ => [[("name", BVal.str "widget")]])
        "parts" "widget").2.2.2.2.2 (by decide)⟩
  · exact ⟨rfl,
      ((C5_delete_semantics (fun _ => []) "parts" "widget").2.2.2.2.1 rfl).2⟩

/-- Claim C6: the result of `list_all_in_collection` carries at most 20
items regardless of the size of the underlying collection, because the
cursor is `find({}).limit(20)`. -/
theorem C6_list_all_capped (db : String → List Document) (cn : String) :
    ∃ xs, getField (list_all_in_collection db cn) "items" =
        some (BVal.list xs) ∧ xs.length ≤ 20 := by
  refine ⟨(((db cn).take 20).map normalizeId).map BVal.doc, rfl, ?_⟩
  simp [List.length_take]

/-- Claim C7: `get_mongo_item` looks the item up by the `name` field —
the found document satisfies the `{"name": id}` query and the not-found
result echoes that query — and in the found case the returned document's
`_id` is never a raw `ObjectId`: an `ObjectId` `_id` has been replaced
by its string rendering. -/
theorem C7_get_item_semantics (db : String → List Document) (cn id : String) :
    (∀ d, find_one (db cn) id = some d →
      nameMatches d id = true ∧
      getField (get_mongo_item db cn id) "found" = some (BVal.bool true) ∧
      getField (get_mongo_item db cn id) "item" =
        some (BVal.doc (normalizeId d)) ∧
      (∀ n, getField (normalizeId d) "_id" ≠ some (BVal.oid n)) ∧
      (∀ n, getField d "_id" = some (BVal.oid n) →
        getField (normalizeId d) "_id" =
          some (BVal.str (oidToString n)))) ∧
    (find_one (db cn) id = none →
      getField (get_mongo_item db cn id) "found" = some (BVal.bool false) ∧
      getField (get_mongo_item db cn id) "query" =
        some (BVal.doc [("name", BVal.str id)]) ∧
      getField (get_mongo_item db cn id) "message" =
        some (BVal.str "Item not found")) := by
  constructor
  · intro d hd
    have hd' : List.find? (fun x => nameMatches x id) (db cn) = some d := hd
    refine ⟨?_, ?_, ?_, fun n => normalizeId_not_oid d n,
      fun n hn => normalizeId_oid d n hn⟩
    · have h2 := List.find?_some hd'
      exact h2
    · simp [get_mongo_item, hd, get_mongo_item_branch, getField]
    · simp [get_mongo_item, hd, get_mongo_item_branch, getField]
  · intro hd
    refine ⟨?_, ?_, ?_⟩ <;>
      simp [get_mongo_item, hd, get_mongo_item_branch, getField]

theorem C7_get_item_semantics_witness :
    nameMatches [("_id", BVal.oid 1), ("name", BVal.str "widget"),
      ("qty", BVal.nat 3)] "widget" = true ∧
    getField (get_mongo_item
      (fun _ => [[("_id", BVal.oid 1), ("name", BVal.str "widget"),
        ("qty", BVal.nat 3)]]) "parts" "widget") "found" =
      some (BVal.bool true) := by
  have h := (C7_get_item_semantics
    (fun _ => [[("_id", BVal.oid 1), ("name", BVal.str "widget"),
      ("qty", BVal.nat 3)]]) "parts" "widget").1
    [("_id", BVal.oid 1), ("name", BVal.str "widget"), ("qty", BVal.nat 3)]
    rfl
  exact ⟨h.1, h.2.1⟩

/-- Claim C10: in every result of `list_all_in_collection`, the `count`
field equals the number of elements of the `items` list. -/
theorem C10_count_eq_items_length (db : String → List Document) (cn : String) :
    ∃ xs : List Document,
      getField (list_all_in_collection db cn) "items" =
        some (BVal.list (xs.map BVal.doc)) ∧
      getField (list_all_in_collection db cn) "count" =
        some (BVal.nat xs.length) ∧
      (xs.map BVal.doc).length = xs.length :=
  ⟨((db cn).take 20).map normalizeId, rfl, rfl, by simp⟩

/-- Shape of every `add_mongo_item` result: always a structured `.ok`
document with a boolean `success` field; `success:true` carries the
inserted id as a string, `success:false` carries an `error` string. -/
theorem addResultShape (b : Bool) (r : Except String Nat) (cn : String) :
    ∃ d, add_mongo_item_db_call_sync b r cn = Except.ok d ∧
      (∃ sb, getField d "success" = some (BVal.bool sb)) ∧
      (getField d "success" = some (BVal.bool true) →
        ∃ s, getField d "inserted_id" = some (BVal.str s)) ∧
      (getField d "success" = some (BVal.bool false) →
        ∃ s, getField d "error" = some (BVal.str s)) := by
  cases b with
  | false =>
      exact ⟨_, rfl, ⟨false, rfl⟩, fun h => by simp [getField] at h,
        fun h => ⟨"item_data must be a dictionary", rfl⟩⟩
  | true =>
      cases r with
      | ok newId =>
          exact ⟨_, rfl, ⟨true, rfl⟩, fun h => ⟨oidToString newId, rfl⟩,
            fun h => by simp [getField] at h⟩
      | error e =>
          exact ⟨_, rfl, ⟨false, rfl⟩, fun h => by simp [getField] at h,
            fun h => ⟨e, rfl⟩⟩

/-- Shape of every `delete_mongo_item` result: always a structured `.ok`
document with a boolean `success` field; `success:true` carries a
positive `deleted_count`, `success:false` carries either an `error`
string or a `message` string. -/
theorem deleteResultShape (r : Except String Nat) (cn item : String) :
    ∃ d, delete_mongo_item_db_call_sync r cn item = Except.ok d ∧
      (∃ sb, getField d "success" = some (BVal.bool sb)) ∧
      (getField d "success" = some (BVal.bool true) →
        ∃ c, getField d "deleted_count" = some (BVal.nat c) ∧ 0 < c) ∧
      (getField d "success" = some (BVal.bool false) →
        (∃ s, getField d "error" = some (BVal.str s)) ∨
        (∃ s, getField d "message" = some (BVal.str s))) := by
  cases r with
  | error e =>
      exact ⟨_, rfl, ⟨false, rfl⟩, fun h => by simp [getField] at h,
        fun h => Or.inl ⟨e, rfl⟩⟩
  | ok c =>
      cases c with
      | zero =>
          exact ⟨_, rfl, ⟨false, rfl⟩, fun h => by simp [getField] at h,
            fun h => Or.inr ⟨"No item found matching query", rfl⟩⟩
      | succ m =>
          refine ⟨[("success", BVal.bool true),
              ("deleted_count", BVal.nat (m + 1)),
              ("query", BVal.doc [("name", BVal.str item)])],
            ?_, ⟨true, rfl⟩,
            fun h => ⟨m + 1, rfl, Nat.succ_pos m⟩,
            fun h => by simp [getField] at h⟩
          simp [delete_mongo_item_db_call_sync]

/-- Claim C8: both mutating tools return a structured result with a
boolean `success` flag; on success it carries the identity or quantity
affected (`inserted_id` for insert, a positive `deleted_count` for
delete), and on failure it carries a descriptive failure string (the
`error` field, or the `message` field for delete's not-found case), so a
caller can branch on `success` alone. -/
theorem C8_mutating_result_shape (b : Bool)
    (insertRes deleteRes : Except String Nat) (cn item : String) :
    ∃ addDoc delDoc,
      add_mongo_item_db_call_sync b insertRes cn = Except.ok addDoc ∧
      delete_mongo_item_db_call_sync deleteRes cn item = Except.ok delDoc ∧
      (∃ sb, getField addDoc "success" = some (BVal.bool sb)) ∧
      (∃ sb, getField delDoc "success" = some (BVal.bool sb)) ∧
      (getField addDoc "success" = some (BVal.bool true) →
        ∃ s, getField addDoc "inserted_id" = some (BVal.str s)) ∧
      (getField delDoc "success" = some (BVal.bool true) →
        ∃ c, getField delDoc "deleted_count" = some (BVal.nat c) ∧ 0 < c) ∧
      (getField addDoc "success" = some (BVal.bool false) →
        ∃ s, getField addDoc "error" = some (BVal.str s)) ∧
      (getField delDoc "success" = some (BVal.bool false) →
        (∃ s, getField delDoc "error" = some (BVal.str s)) ∨
        (∃ s, getField delDoc "message" = some (BVal.str s))) := by
  obtain ⟨a, ha, ha1, ha2, ha3⟩ := addResultShape b insertRes cn
  obtain ⟨d, hd, hd1, hd2, hd3⟩ := deleteResultShape deleteRes cn item
  exact ⟨a, d, ha, hd, ha1, hd1, ha2, hd2, ha3, hd3⟩

theorem C8_mutating_result_shape_witness :
    ∃ addDoc delDoc,
      add_mongo_item_db_call_sync true (Except.ok 5) "parts" =
        Except.ok addDoc ∧
      delete_mongo_item_db_call_sync (Except.ok 1) "parts" "widget" =
        Except.ok delDoc ∧
      (∃ s, getField addDoc "inserted_id" = some (BVal.str s)) ∧
      (∃ c, getField delDoc "deleted_count" = some (BVal.nat c) ∧ 0 < c) := by
  obtain ⟨a, d, ha, hd, hs1, hs2, hai, hdc, he1, he2⟩ :=
    C8_mutating_result_shape true (Except.ok 5) (Except.ok 1) "parts" "widget"
  have ha2 : (Except.ok [("success", BVal.bool true),
      ("collection", BVal.str "parts"),
      ("inserted_id", BVal.str (oidToString 5))] :
      Except String Document) = Except.ok a := ha
  have hd2 : (Except.ok [("success", BVal.bool true),
      ("deleted_count", BVal.nat 1),
      ("query", BVal.doc [("name", BVal.str "widget")])] :
      Except String Document) = Except.ok d := hd
  have ha3 := Except.ok.inj ha2
  have hd3 := Except.ok.inj hd2
  refine ⟨a, d, ha, hd, hai ?_, hdc ?_⟩
  · rw [← ha3]
    rfl
  · rw [← hd3]
    rfl
